import Mathlib

/-!
Verification of the AI virtual mouse gesture core (`ai_virtual_mouse.py`).

The script translates per-frame hand landmarks into pointer actions:
smoothed cursor motion, pinch click, pinch drag toggle, scroll, and a
hover (dwell) click.  We embed the per-frame logic shallowly:

* normalized landmark coordinates become exact rationals (`ℚ`);
* Python's `int(...)` truncation toward zero becomes `pyint`;
* `pyautogui` side effects become elements of an `Event` list;
* landmark indexing `hand_landmarks.landmark[i]` becomes `l[i]?`,
  so a Python `IndexError` becomes `none`; when a call raises, the
  per-hand step keeps the events emitted before the failing call and
  reports `none` for the post-frame state (the exception propagates
  out of the `while` loop and the program stops);
* the module-level mutable variables (`previous_position`, `dragging`,
  `hover_start_time`) become an explicit `LoopState` threaded through
  the per-frame step; `screen_width` / `screen_height` (read from the
  environment via `pyautogui.size()`) and the current clock reading
  `time.time()` are passed as parameters.

The source compares `np.sqrt(dx^2 + dy^2) < 0.05`; since both sides are
nonnegative this is equivalent to `dx^2 + dy^2 < 0.05^2`, which is how
the executable definitions state it (`calculate_distance_sq`); the
equivalence with the square-root form is proved in
`calculate_distance_lt_iff`.
-/

/-- One normalized hand landmark (MediaPipe coordinates) with exact
rational coordinates. -/
structure Landmark where
  x : ℚ
  y : ℚ
  deriving DecidableEq, Repr

/-- Abstract pointer side effects of the script: `pyautogui.moveTo`,
`pyautogui.click`, `pyautogui.mouseDown`, `pyautogui.mouseUp`,
`pyautogui.scroll`. -/
inductive Event where
  | Move (x y : ℤ)
  | Click
  | MouseDown
  | MouseUp
  | Scroll (delta : ℤ)
  deriving DecidableEq, Repr

/-- Python `int(...)` applied to a numeric value: truncation toward
zero. -/
def pyint (q : ℚ) : ℤ := if 0 ≤ q then ⌊q⌋ else -⌊-q⌋

/-- Squared Euclidean distance between two landmarks: the radicand of
`calculate_distance` in the source (`np.sqrt((x1-x2)**2 + (y1-y2)**2)`). -/
def calculate_distance_sq (point1 point2 : Landmark) : ℚ :=
  (point1.x - point2.x) ^ 2 + (point1.y - point2.y) ^ 2

/-- The source's `calculate_distance`: Euclidean distance between two
landmarks, with the square root taken in `ℝ`. -/
noncomputable def calculate_distance (point1 point2 : Landmark) : ℝ :=
  Real.sqrt (((point1.x - point2.x : ℚ) : ℝ) ^ 2 + ((point1.y - point2.y : ℚ) : ℝ) ^ 2)

/-- The global `sensitivity = 1.5` of the script. -/
def sensitivity : ℚ := 1.5

/-- Source `move_mouse_smooth(hand_landmarks, previous_position, sensitivity)`:
reads landmark 8 (index fingertip), scales by screen size and
sensitivity with `int(...)`, blends `0.7 / 0.3` with the previous
position when one exists, calls `pyautogui.moveTo` and returns the new
position.  `screen_width` / `screen_height` are the module globals
obtained from `pyautogui.size()`. -/
def move_mouse_smooth (screen_width screen_height : ℚ) (hand_landmarks : List Landmark)
    (previous_position : Option (ℤ × ℤ)) (sens : ℚ) :
    Option ((ℤ × ℤ) × List Event) :=
  match hand_landmarks[8]? with
  | none => none
  | some lm =>
    let mouse_x := pyint (lm.x * screen_width * sens)
    let mouse_y := pyint (lm.y * screen_height * sens)
    let pos :=
      match previous_position with
      | some p => (pyint ((mouse_x : ℚ) * 0.7 + (p.1 : ℚ) * 0.3),
                   pyint ((mouse_y : ℚ) * 0.7 + (p.2 : ℚ) * 0.3))
      | none => (mouse_x, mouse_y)
    some (pos, [Event.Move pos.1 pos.2])

/-- Source `detect_click(hand_landmarks, frame)`: a `pyautogui.click()`
whenever `calculate_distance(thumb_tip, index_tip) < 0.05`, i.e. on
every frame the pinch is closed. -/
def detect_click (hand_landmarks : List Landmark) : Option (List Event) :=
  match hand_landmarks[4]?, hand_landmarks[8]? with
  | some thumb_tip, some index_tip =>
    if calculate_distance_sq thumb_tip index_tip < (0.05 : ℚ) ^ 2 then
      some [Event.Click]
    else
      some []
  | _, _ => none

/-- Source `toggle_drag(hand_landmarks, dragging, frame)`: whenever
`calculate_distance(thumb_tip, index_tip) < 0.05`, flips the `dragging`
flag, emitting `mouseDown` when it was off and `mouseUp` when it was
on; otherwise returns `dragging` unchanged. -/
def toggle_drag (hand_landmarks : List Landmark) (dragging : Bool) :
    Option (Bool × List Event) :=
  match hand_landmarks[4]?, hand_landmarks[8]? with
  | some thumb_tip, some index_tip =>
    if calculate_distance_sq thumb_tip index_tip < (0.05 : ℚ) ^ 2 then
      if !dragging then
        some (true, [Event.MouseDown])
      else
        some (false, [Event.MouseUp])
    else
      some (dragging, [])
  | _, _ => none

/-- Source `scroll(hand_landmarks)`: `pyautogui.scroll(10)` when the
index fingertip is strictly above the middle fingertip (smaller `y`),
`pyautogui.scroll(-10)` when strictly below, nothing when equal. -/
def scroll (hand_landmarks : List Landmark) : Option (List Event) :=
  match hand_landmarks[8]?, hand_landmarks[12]? with
  | some index_tip, some middle_tip =>
    if index_tip.y < middle_tip.y then
      some [Event.Scroll 10]
    else if index_tip.y > middle_tip.y then
      some [Event.Scroll (-10)]
    else
      some []
  | _, _ => none

/-- Source `hover_click(hand_landmarks, hover_start_time, frame)`:
reads landmark 8 (the computed `current_position` is never used), sets
the timer when `hover_start_time` is falsy (Python: `None` or `0.0`),
clicks and clears the timer when more than one second has elapsed, and
otherwise leaves the timer alone.  No position is compared. -/
def hover_click (hand_landmarks : List Landmark) (hover_start_time : Option ℚ)
    (now : ℚ) : Option (Option ℚ × List Event) :=
  match hand_landmarks[8]? with
  | none => none
  | some _index_tip =>
    match hover_start_time with
    | none => some (some now, [])
    | some t0 =>
      if t0 = 0 then
        some (some now, [])
      else if now - t0 > 1 then
        some (none, [Event.Click])
      else
        some (some t0, [])

/-- The module-level mutable state of the script:
`previous_position`, `dragging`, `hover_start_time`. -/
structure LoopState where
  previous_position : Option (ℤ × ℤ)
  dragging : Bool
  hover_start_time : Option ℚ
  deriving DecidableEq, Repr

/-- The initial module state (lines 29-31 of the source):
`hover_start_time = None`, `previous_position = None`, `dragging = False`. -/
def initialState : LoopState :=
  { previous_position := none, dragging := false, hover_start_time := none }

/-- The body of the `for landmarks in result.multi_hand_landmarks`
loop for one hand: cursor move with smoothing, then click detection,
drag toggle, scroll, and hover click, in source order, accumulating
the emitted events.  A `none` result (landmark index out of range)
keeps the events already emitted before the failing call and reports
no post-frame state, mirroring the uncaught `IndexError`. -/
def process_hand (screen_width screen_height sens now : ℚ)
    (hand_landmarks : List Landmark) (st : LoopState) :
    List Event × Option LoopState :=
  match move_mouse_smooth screen_width screen_height hand_landmarks
      st.previous_position sens with
  | none => ([], none)
  | some (pos, mv) =>
    match detect_click hand_landmarks with
    | none => (mv, none)
    | some ck =>
      match toggle_drag hand_landmarks st.dragging with
      | none => (mv ++ ck, none)
      | some (dragging, dr) =>
        match scroll hand_landmarks with
        | none => (mv ++ ck ++ dr, none)
        | some sc =>
          match hover_click hand_landmarks st.hover_start_time now with
          | none => (mv ++ ck ++ dr ++ sc, none)
          | some (hover_start_time, hv) =>
            (mv ++ ck ++ dr ++ sc ++ hv,
             some { previous_position := some pos,
                    dragging := dragging,
                    hover_start_time := hover_start_time })

/-- One iteration of the main `while` loop over the set of detected
hands (an absent or empty `result.multi_hand_landmarks` is the empty
list): each hand is processed in order against the threaded module
state; an `IndexError` aborts the remaining hands of the frame. -/
def process_frame (screen_width screen_height sens now : ℚ)
    (hands : List (List Landmark)) (st : LoopState) :
    List Event × Option LoopState :=
  match hands with
  | [] => ([], some st)
  | h :: rest =>
    match process_hand screen_width screen_height sens now h st with
    | (evs, none) => (evs, none)
    | (evs, some st1) =>
      match process_frame screen_width screen_height sens now rest st1 with
      | (evs2, r) => (evs ++ evs2, r)

/-- Iterated drag toggling over a sequence of frames, starting from an
initial `dragging` flag: the fold the main loop performs on the
`dragging` module variable. -/
def run_toggle_drag (frames : List (List Landmark)) (dragging : Bool) :
    Option (Bool × List Event) :=
  match frames with
  | [] => some (dragging, [])
  | f :: rest =>
    match toggle_drag f dragging with
    | none => none
    | some (d1, evs1) =>
      match run_toggle_drag rest d1 with
      | none => none
      | some (d2, evs2) => some (d2, evs1 ++ evs2)

/-- The smoothing formula as the specification words it, parametric in
the smoothing factor: `raw_target * factor + previous_position *
(1 - factor)` componentwise, truncated to integer pixels. -/
def smooth_spec (factor : ℚ) (raw prev : ℤ × ℤ) : ℤ × ℤ :=
  (pyint ((raw.1 : ℚ) * factor + (prev.1 : ℚ) * (1 - factor)),
   pyint ((raw.2 : ℚ) * factor + (prev.2 : ℚ) * (1 - factor)))

/-- A hand whose 21 landmarks all coincide at the origin: thumb tip and
index tip touch, so the pinch is closed (`distance = 0 < 0.05`). -/
def pinchHand : List Landmark := List.replicate 21 ⟨0, 0⟩

/-- A hand with the index fingertip (landmark 8) away from the thumb
tip (landmark 4): squared distance `1/4 ≥ 0.05^2`, so no pinch. -/
def openHand : List Landmark :=
  [⟨0, 0⟩, ⟨0, 0⟩, ⟨0, 0⟩, ⟨0, 0⟩, ⟨0, 0⟩, ⟨0, 0⟩, ⟨0, 0⟩, ⟨0, 0⟩,
   ⟨1/2, 0⟩,
   ⟨0, 0⟩, ⟨0, 0⟩, ⟨0, 0⟩, ⟨0, 0⟩, ⟨0, 0⟩, ⟨0, 0⟩, ⟨0, 0⟩, ⟨0, 0⟩,
   ⟨0, 0⟩, ⟨0, 0⟩, ⟨0, 0⟩, ⟨0, 0⟩]

/-- A hand with no pinch (landmark 4 far from landmark 8), the index
fingertip strictly above the middle fingertip (`0.3 < 0.5`), suited to
trigger a scroll. -/
def handC : List Landmark :=
  [⟨0, 0⟩, ⟨0, 0⟩, ⟨0, 0⟩, ⟨0, 0⟩, ⟨0, 0⟩, ⟨0, 0⟩, ⟨0, 0⟩, ⟨0, 0⟩,
   ⟨1/2, 3/10⟩,
   ⟨0, 0⟩, ⟨0, 0⟩, ⟨0, 0⟩,
   ⟨1/2, 5/10⟩,
   ⟨0, 0⟩, ⟨0, 0⟩, ⟨0, 0⟩, ⟨0, 0⟩, ⟨0, 0⟩, ⟨0, 0⟩, ⟨0, 0⟩, ⟨0, 0⟩]

/-- A hand whose index fingertip sits at `(0.1, 0.1)`. -/
def handA : List Landmark := List.replicate 21 ⟨1/10, 1/10⟩

/-- A hand whose index fingertip sits at `(0.9, 0.9)`, far from
`handA`'s. -/
def handB : List Landmark := List.replicate 21 ⟨9/10, 9/10⟩

/-- A hand whose 21 landmarks all sit at `(0.5, 0.5)`. -/
def halfHand : List Landmark := List.replicate 21 ⟨1/2, 1/2⟩

/-- A hand whose 21 landmarks all sit at the in-range corner `(1, 1)`. -/
def fullHand : List Landmark := List.replicate 21 ⟨1, 1⟩

/-- A hand whose landmarks carry the out-of-range coordinate `x = 1.5`. -/
def bigHand : List Landmark := List.replicate 21 ⟨3/2, 1⟩

/-- A malformed hand with only 15 landmarks (indices 4, 8, 12 still
exist). -/
def hand15 : List Landmark := List.replicate 15 ⟨1/2, 1/2⟩

/-- A malformed hand with only 5 landmarks (index 8 is out of range). -/
def hand5 : List Landmark := List.replicate 5 ⟨0, 0⟩

/-- Comparing the Euclidean distance against a positive threshold is the
same as comparing the squared distance against the squared threshold;
this justifies stating the executable classifiers with
`calculate_distance_sq`. -/
theorem calculate_distance_lt_iff (point1 point2 : Landmark) (c : ℚ) (hc : 0 < c) :
    calculate_distance point1 point2 < (c : ℝ) ↔
      calculate_distance_sq point1 point2 < c ^ 2 := by
  unfold calculate_distance calculate_distance_sq
  rw [Real.sqrt_lt' (by exact_mod_cast hc)]
  constructor
  · intro h
    exact_mod_cast h
  · intro h
    exact_mod_cast h

/-- Claim C1, counterexample: on the frame sequence whose pinch-active
pattern is `[false, true, true, true, false, true]`, the click
classifier emits a `Click` at positions 2, 3, 4 and 6 (1-indexed) — in
particular at positions 3 and 4, which the claim excludes, and four
times rather than "exactly two": the pinch signal the code consumes is
level-triggered, not edge-triggered. -/
theorem detect_click_not_edge_triggered :
    [openHand, pinchHand, pinchHand, pinchHand, openHand, pinchHand].map detect_click =
      [some [], some [Event.Click], some [Event.Click], some [Event.Click],
       some [], some [Event.Click]] := by
  norm_num [detect_click, pinchHand, openHand, calculate_distance_sq]

/-- Claim C1, amended: the pinch signal the click classifier consumes
is level-triggered — on every frame whose thumb-tip-to-index-tip
distance is below `0.05` (equivalently, squared distance below
`0.05^2`) a `Click` is emitted, independently of any previous frame,
so for the pinch-active pattern `[false, true, true, true, false,
true]` a `Click` occurs at positions 2, 3, 4 and 6 (one per frame the
pinch stays closed). -/
theorem detect_click_level_triggered (h : List Landmark)
    (thumb_tip index_tip : Landmark)
    (h4 : h[4]? = some thumb_tip) (h8 : h[8]? = some index_tip) :
    detect_click h =
      some (if calculate_distance_sq thumb_tip index_tip < (0.05 : ℚ) ^ 2 then
              [Event.Click]
            else
              []) := by
  by_cases hc : calculate_distance_sq thumb_tip index_tip < (0.05 : ℚ) ^ 2 <;>
    simp [detect_click, h4, h8, hc]

/-- Witness for `detect_click_level_triggered` at the closed-pinch
hand. -/
theorem detect_click_level_triggered_witness :
    detect_click pinchHand =
      some (if calculate_distance_sq ⟨0, 0⟩ ⟨0, 0⟩ < (0.05 : ℚ) ^ 2 then
              [Event.Click]
            else
              []) :=
  detect_click_level_triggered pinchHand ⟨0, 0⟩ ⟨0, 0⟩ rfl rfl

/-- Claim C2: the drag classifier is a two-state machine (the boolean
`dragging` flag) starting in Released (`dragging = false`); a frame
with a qualifying pinch flips the state, emitting `MouseDown` on
Released-to-Dragging and `MouseUp` on Dragging-to-Released; feeding
three qualifying pinch frames from the initial state yields exactly
`[MouseDown, MouseUp, MouseDown]` and ends in Dragging; and a
`MouseDown` is only ever emitted from `dragging = false`, a `MouseUp`
only from `dragging = true`. -/
theorem toggle_drag_state_machine :
    initialState.dragging = false ∧
    (∀ (h : List Landmark) (d : Bool) (thumb_tip index_tip : Landmark),
        h[4]? = some thumb_tip → h[8]? = some index_tip →
        calculate_distance_sq thumb_tip index_tip < (0.05 : ℚ) ^ 2 →
        toggle_drag h d =
          some (!d, if d then [Event.MouseUp] else [Event.MouseDown])) ∧
    run_toggle_drag [pinchHand, pinchHand, pinchHand] initialState.dragging =
      some (true, [Event.MouseDown, Event.MouseUp, Event.MouseDown]) ∧
    (∀ (h : List Landmark) (d d' : Bool) (evs : List Event),
        toggle_drag h d = some (d', evs) →
        (Event.MouseDown ∈ evs → d = false ∧ d' = true) ∧
        (Event.MouseUp ∈ evs → d = true ∧ d' = false)) := by
  refine ⟨rfl, ?_, ?_, ?_⟩
  · intro h d thumb_tip index_tip h4 h8 hc
    cases d <;> simp [toggle_drag, h4, h8, hc]
  · norm_num [run_toggle_drag, toggle_drag, initialState, pinchHand,
      calculate_distance_sq]
  · intro h d d' evs htd
    rcases hg4 : h[4]? with _ | thumb_tip <;>
      rcases hg8 : h[8]? with _ | index_tip <;>
        simp [toggle_drag, hg4, hg8] at htd
    by_cases hc : calculate_distance_sq thumb_tip index_tip < (0.05 : ℚ) ^ 2 <;>
      cases d <;> simp [hc] at htd <;> obtain ⟨h1, h2⟩ := htd <;>
        subst h1 <;> subst h2 <;> simp

/-- Witness for `toggle_drag_state_machine`: its hypothesis-bearing
conjuncts applied at the closed-pinch hand. -/
theorem toggle_drag_state_machine_witness :
    toggle_drag pinchHand false =
      some (!false, if false then [Event.MouseUp] else [Event.MouseDown]) ∧
    ((Event.MouseDown ∈ [Event.MouseDown] → false = false ∧ true = true) ∧
      (Event.MouseUp ∈ [Event.MouseDown] → false = true ∧ true = false)) :=
  ⟨toggle_drag_state_machine.2.1 pinchHand false ⟨0, 0⟩ ⟨0, 0⟩ rfl rfl
      (by norm_num [calculate_distance_sq]),
   toggle_drag_state_machine.2.2.2 pinchHand false true [Event.MouseDown]
      (by norm_num [toggle_drag, pinchHand, calculate_distance_sq])⟩

/-- Claim C3, code evaluation at the failing input: the hover
classifier keeps no anchor and never compares positions.  Starting the
timer at `t = 100` with the fingertip at `(0.1, 0.1)` and calling again
at `t = 101.5` with the fingertip at `(0.9, 0.9)` — a displacement far
beyond any stability tolerance (squared distance `1.28 > 0.01^2`) —
still emits a `Click`, where the claim (and the function's own
docstring, "hovers in the same position") requires the movement to
reset the timer and emit nothing. -/
theorem hover_click_ignores_position :
    hover_click handA none 100 = some (some 100, []) ∧
    hover_click handB (some 100) (203 / 2) = some (none, [Event.Click]) ∧
    (0.01 : ℚ) ^ 2 < calculate_distance_sq ⟨1/10, 1/10⟩ ⟨9/10, 9/10⟩ := by
  refine ⟨rfl, ?_, by norm_num [calculate_distance_sq]⟩
  norm_num [hover_click, handB]

/-- Claim C4, counterexample: a frame that reports no hands while
`dragging = true` (the tracked hand disappeared mid-drag) emits no
trailing `MouseUp` and leaves the drag state at `Dragging` — the
pointer sink stays pressed, contradicting the claimed teardown. -/
theorem no_teardown_mouseup :
    process_frame 1920 1080 (3/2) 100 []
      { previous_position := some (500, 500), dragging := true,
        hover_start_time := none } =
      ([], some { previous_position := some (500, 500), dragging := true,
                  hover_start_time := none }) := by
  rfl

/-- Claim C4, amended: when the tracked hand stops being reported the
main loop performs no per-hand work at all — no event is emitted
(in particular no trailing `MouseUp`) and the whole module state,
including a `dragging = true` flag, persists unchanged. -/
theorem frame_without_hands_preserves_state
    (screen_width screen_height sens now : ℚ) (st : LoopState) :
    process_frame screen_width screen_height sens now [] st = ([], some st) :=
  rfl

/-- Claim C5, counterexample: the smoothing factor is not a parameter —
it is hard-coded to `0.7`.  For the factor `1/2 ∈ (0,1)`, raw target
`(750, 750)` (index fingertip at `(0.5, 0.5)`, screen `1000×1000`,
sensitivity `1.5`) and previous position `(0, 0)`, the claimed formula
yields `(375, 375)` while the smoothing operation returns `(525, 525)`
(the `0.7/0.3` blend). -/
theorem smoothing_factor_not_parametric :
    (0 < (1/2 : ℚ) ∧ (1/2 : ℚ) < 1) ∧
    pyint ((1/2 : ℚ) * 1000 * (3/2)) = 750 ∧
    move_mouse_smooth 1000 1000 halfHand (some (0, 0)) (3/2) =
      some ((525, 525), [Event.Move 525 525]) ∧
    smooth_spec (1/2) (750, 750) (0, 0) = (375, 375) ∧
    (525 : ℤ) ≠ 375 := by
  norm_num [move_mouse_smooth, smooth_spec, halfHand, pyint]

/-- Claim C5, amended: with the hard-coded smoothing factor `0.7`
(which does lie in `(0,1)`), the smoothing operation returns
`raw_target * 0.7 + previous_position * 0.3` componentwise truncated
to integer pixels when a previous position exists, returns the raw
target unchanged when none exists, and the main loop stores exactly
the returned position as the new previous position. -/
theorem move_mouse_smooth_fixed_factor :
    (∀ (screen_width screen_height sens : ℚ) (h : List Landmark) (lm : Landmark)
        (prev : Option (ℤ × ℤ)), h[8]? = some lm →
        move_mouse_smooth screen_width screen_height h prev sens =
          (let raw := (pyint (lm.x * screen_width * sens),
                       pyint (lm.y * screen_height * sens))
           let out := match prev with
             | none => raw
             | some p => smooth_spec (7/10) raw p
           some (out, [Event.Move out.1 out.2]))) ∧
    (∀ (screen_width screen_height sens now : ℚ) (h : List Landmark)
        (st st' : LoopState) (evs : List Event),
        process_hand screen_width screen_height sens now h st = (evs, some st') →
        ∃ pos mv,
          move_mouse_smooth screen_width screen_height h
              st.previous_position sens = some (pos, mv) ∧
          st'.previous_position = some pos) := by
  constructor
  · intro screen_width screen_height sens h lm prev h8
    cases prev <;> simp [move_mouse_smooth, smooth_spec, h8] <;> norm_num
  · intro screen_width screen_height sens now h st st' evs hp
    unfold process_hand at hp
    rcases hm : move_mouse_smooth screen_width screen_height h
        st.previous_position sens with _ | ⟨pos, mv⟩ <;> rw [hm] at hp
    · simp at hp
    rcases hck : detect_click h with _ | ck <;> rw [hck] at hp
    · simp at hp
    rcases htd : toggle_drag h st.dragging with _ | ⟨d, dr⟩ <;> rw [htd] at hp
    · simp at hp
    rcases hsc : scroll h with _ | sc <;> rw [hsc] at hp
    · simp at hp
    rcases hhv : hover_click h st.hover_start_time now with _ | ⟨hv, hvEvs⟩ <;>
      rw [hhv] at hp
    · simp at hp
    simp only [Prod.mk.injEq] at hp
    obtain ⟨-, h2⟩ := hp
    obtain rfl := Option.some.inj h2
    exact ⟨pos, mv, rfl, rfl⟩

/-- Claim C6, counterexample: a malformed hand with only 15 landmarks
(fewer than the expected 21) is not rejected — since the indices the
code touches (4, 8, 12) still exist, the hand's frame is fully
classified and events are emitted (cursor move, pinch click, drag
toggle), with no malformed-input signal of any kind. -/
theorem malformed_hand_not_rejected :
    hand15.length < 21 ∧
    process_hand 1000 1000 (3/2) 100 hand15 initialState =
      ([Event.Move 750 750, Event.Click, Event.MouseDown],
       some { previous_position := some (750, 750), dragging := true,
              hover_start_time := some 100 }) := by
  constructor
  · norm_num [hand15]
  · norm_num [process_hand, move_mouse_smooth, detect_click, toggle_drag,
      scroll, hover_click, calculate_distance_sq, pyint, hand15, initialState]

/-- Claim C6, amended: the code performs no landmark-count validation.
A hand with at least 13 landmarks is fully classified even though it
is malformed (fewer than 21); a hand too short for an accessed index
(here 5 landmarks, index 8 out of range) raises an uncaught
`IndexError` that aborts the frame — emitting no events and also
skipping every remaining hand of that frame — rather than skipping
just that hand with a diagnosable malformed-input signal. -/
theorem no_landmark_validation :
    (hand15.length < 21 ∧
      process_hand 1000 1000 (3/2) 100 hand15 initialState =
        ([Event.Move 750 750, Event.Click, Event.MouseDown],
         some { previous_position := some (750, 750), dragging := true,
                hover_start_time := some 100 })) ∧
    (hand5.length < 21 ∧
      process_hand 1000 1000 (3/2) 100 hand5 initialState = ([], none) ∧
      process_frame 1000 1000 (3/2) 100 [hand5, pinchHand] initialState =
        ([], none)) := by
  refine ⟨⟨by norm_num [hand15], ?_⟩, ⟨by norm_num [hand5], rfl, rfl⟩⟩
  norm_num [process_hand, move_mouse_smooth, detect_click, toggle_drag,
    scroll, hover_click, calculate_distance_sq, pyint, hand15, initialState]

/-- Claim C7: the scroll classifier emits `Scroll{+10}` when the index
fingertip's `y` is strictly smaller than the middle fingertip's,
`Scroll{-10}` when strictly greater, and nothing when they are equal. -/
theorem scroll_sign (h : List Landmark) (index_tip middle_tip : Landmark)
    (h8 : h[8]? = some index_tip) (h12 : h[12]? = some middle_tip) :
    (index_tip.y < middle_tip.y → scroll h = some [Event.Scroll 10]) ∧
    (index_tip.y > middle_tip.y → scroll h = some [Event.Scroll (-10)]) ∧
    (index_tip.y = middle_tip.y → scroll h = some []) := by
  refine ⟨?_, ?_, ?_⟩ <;> intro hy
  · simp [scroll, h8, h12, hy]
  · simp [scroll, h8, h12, hy, asymm hy]
  · simp [scroll, h8, h12, hy]

/-- Witness for `scroll_sign` at the claim's own input: index fingertip
`y = 0.3`, middle fingertip `y = 0.5` emits `Scroll{+10}`. -/
theorem scroll_sign_witness : scroll handC = some [Event.Scroll 10] :=
  (scroll_sign handC ⟨1/2, 3/10⟩ ⟨1/2, 5/10⟩ rfl rfl).1 (by norm_num)

/-- Witness for `move_mouse_smooth_fixed_factor`: both conjuncts applied
at concrete inputs (index fingertip `(0.5, 0.5)`, screen `1000×1000`,
sensitivity `1.5`). -/
theorem move_mouse_smooth_fixed_factor_witness :
    (move_mouse_smooth 1000 1000 halfHand (some (0, 0)) (3/2) =
      (let raw := (pyint ((1/2 : ℚ) * 1000 * (3/2)), pyint ((1/2 : ℚ) * 1000 * (3/2)))
       let out := smooth_spec (7/10) raw (0, 0)
       some (out, [Event.Move out.1 out.2]))) ∧
    (∃ pos mv,
      move_mouse_smooth 1000 1000 halfHand none (3/2) = some (pos, mv) ∧
      (some (750, 750) : Option (ℤ × ℤ)) = some pos) := by
  constructor
  · exact move_mouse_smooth_fixed_factor.1 1000 1000 (3/2) halfHand ⟨1/2, 1/2⟩
      (some (0, 0)) rfl
  · exact move_mouse_smooth_fixed_factor.2 1000 1000 (3/2) 100 halfHand
      initialState
      { previous_position := some (750, 750), dragging := true,
        hover_start_time := some 100 }
      [Event.Move 750 750, Event.Click, Event.MouseDown]
      (by norm_num [process_hand, move_mouse_smooth, detect_click, toggle_drag,
        scroll, hover_click, calculate_distance_sq, pyint, halfHand,
        initialState])

/-- Claim C8, counterexample: no clamping exists anywhere.  The in-range
landmark `(1, 1)` on a `1920×1080` screen produces the cursor position
`(2880, 1620)` — outside the addressable range `[0,1919]×[0,1079]` —
and the out-of-range coordinate `x = 1.5` is fed to the position math
unclamped, yielding `(4320, 1620)`. -/
theorem cursor_position_not_clamped :
    move_mouse_smooth 1920 1080 fullHand none (3/2) =
      some ((2880, 1620), [Event.Move 2880 1620]) ∧
    ¬(2880 : ℤ) ≤ 1920 - 1 ∧
    move_mouse_smooth 1920 1080 bigHand none (3/2) =
      some ((4320, 1620), [Event.Move 4320 1620]) := by
  norm_num [move_mouse_smooth, fullHand, bigHand, pyint]

/-- Claim C8, amended: the cursor position is the raw scaled product
`int(coord * screen_dimension * sensitivity)` componentwise, with no
clamping of either the input normalized coordinates or the output
pixels; it leaves the screen's addressable range whenever
`coord * sensitivity > 1`, and out-of-`[0,1]` inputs are used as-is. -/
theorem move_mouse_no_clamping (screen_width screen_height sens : ℚ)
    (h : List Landmark) (lm : Landmark) (h8 : h[8]? = some lm) :
    move_mouse_smooth screen_width screen_height h none sens =
      some ((pyint (lm.x * screen_width * sens),
             pyint (lm.y * screen_height * sens)),
            [Event.Move (pyint (lm.x * screen_width * sens))
              (pyint (lm.y * screen_height * sens))]) := by
  simp [move_mouse_smooth, h8]

/-- Witness for `move_mouse_no_clamping` at the out-of-range hand. -/
theorem move_mouse_no_clamping_witness :
    move_mouse_smooth 1920 1080 bigHand none (3/2) =
      some ((pyint ((3/2 : ℚ) * 1920 * (3/2)), pyint ((1 : ℚ) * 1080 * (3/2))),
            [Event.Move (pyint ((3/2 : ℚ) * 1920 * (3/2)))
              (pyint ((1 : ℚ) * 1080 * (3/2)))]) :=
  move_mouse_no_clamping 1920 1080 (3/2) bigHand ⟨3/2, 1⟩ rfl

/-- Claim C9, counterexample: with a hand that both scrolls (index
fingertip above middle fingertip) and fires the hover click (timer
started at `t = 100`, frame at `t = 102`), the per-frame event list is
`[Move, Scroll, Click]` — the hover `Click` comes after the `Scroll`,
because `hover_click` runs last in the loop body, contradicting the
claimed "Scroll always last" ordering. -/
theorem click_after_scroll :
    process_hand 1000 1000 (3/2) 102 handC
      { previous_position := none, dragging := false,
        hover_start_time := some 100 } =
      ([Event.Move 750 450, Event.Scroll 10, Event.Click],
       some { previous_position := some (750, 450), dragging := false,
              hover_start_time := none }) ∧
    [Event.Move 750 450, Event.Scroll 10, Event.Click][1]? =
      some (Event.Scroll 10) ∧
    [Event.Move 750 450, Event.Scroll 10, Event.Click][2]? = some Event.Click := by
  refine ⟨?_, rfl, rfl⟩
  norm_num [process_hand, move_mouse_smooth, detect_click, toggle_drag, scroll,
    hover_click, calculate_distance_sq, pyint, handC]

/-- Claim C9, amended: the per-hand event order is `Move`, then pinch
`Click`, then `MouseDown`/`MouseUp`, then `Scroll`, then hover `Click`:
the frame's events decompose as the concatenation of the five
classifiers' outputs in source order, so a hover `Click` follows a
`Scroll` whenever both fire in the same frame. -/
theorem frame_event_order (screen_width screen_height sens now : ℚ)
    (h : List Landmark) (st st' : LoopState) (evs : List Event)
    (hp : process_hand screen_width screen_height sens now h st =
      (evs, some st')) :
    ∃ pos mv ck dr sc hv,
      move_mouse_smooth screen_width screen_height h
          st.previous_position sens = some (pos, mv) ∧
      detect_click h = some ck ∧
      toggle_drag h st.dragging = some (st'.dragging, dr) ∧
      scroll h = some sc ∧
      hover_click h st.hover_start_time now = some (st'.hover_start_time, hv) ∧
      evs = mv ++ ck ++ dr ++ sc ++ hv := by
  unfold process_hand at hp
  rcases hm : move_mouse_smooth screen_width screen_height h
      st.previous_position sens with _ | ⟨pos, mv⟩ <;> rw [hm] at hp
  · simp at hp
  rcases hck : detect_click h with _ | ck <;> rw [hck] at hp
  · simp at hp
  rcases htd : toggle_drag h st.dragging with _ | ⟨d, dr⟩ <;> rw [htd] at hp
  · simp at hp
  rcases hsc : scroll h with _ | sc <;> rw [hsc] at hp
  · simp at hp
  rcases hhv : hover_click h st.hover_start_time now with _ | ⟨hv, hvEvs⟩ <;>
    rw [hhv] at hp
  · simp at hp
  simp only [Prod.mk.injEq] at hp
  obtain ⟨hevs, h2⟩ := hp
  obtain rfl := Option.some.inj h2
  exact ⟨pos, mv, ck, dr, sc, hvEvs, rfl, rfl, rfl, rfl, rfl, hevs.symm⟩

/-- Witness for `frame_event_order` at the scroll-plus-hover hand. -/
theorem frame_event_order_witness :
    ∃ pos mv ck dr sc hv,
      move_mouse_smooth 1000 1000 handC none (3/2) = some (pos, mv) ∧
      detect_click handC = some ck ∧
      toggle_drag handC false = some (false, dr) ∧
      scroll handC = some sc ∧
      hover_click handC (some 100) 102 = some (none, hv) ∧
      [Event.Move 750 450, Event.Scroll 10, Event.Click] =
        mv ++ ck ++ dr ++ sc ++ hv :=
  frame_event_order 1000 1000 (3/2) 102 handC
    { previous_position := none, dragging := false, hover_start_time := some 100 }
    { previous_position := some (750, 450), dragging := false,
      hover_start_time := none }
    [Event.Move 750 450, Event.Scroll 10, Event.Click]
    (by norm_num [process_hand, move_mouse_smooth, detect_click, toggle_drag,
      scroll, hover_click, calculate_distance_sq, pyint, handC])

/-- Claim C10: on a frame whose thumb-tip-to-index-tip distance is at
least the `0.05` pinch threshold, the drag operation returns the
dragging flag unchanged and emits no `MouseDown` or `MouseUp`, and the
click operation emits no `Click`. -/
theorem no_pinch_no_event (h : List Landmark) (d : Bool)
    (thumb_tip index_tip : Landmark)
    (h4 : h[4]? = some thumb_tip) (h8 : h[8]? = some index_tip)
    (hfar : ((0.05 : ℚ) : ℝ) ≤ calculate_distance thumb_tip index_tip) :
    toggle_drag h d = some (d, []) ∧ detect_click h = some [] := by
  have hc : ¬ calculate_distance_sq thumb_tip index_tip < (0.05 : ℚ) ^ 2 := by
    rw [← calculate_distance_lt_iff thumb_tip index_tip (0.05 : ℚ) (by norm_num)]
    exact not_lt.mpr hfar
  constructor <;> simp [toggle_drag, detect_click, h4, h8, hc]

/-- Witness for `no_pinch_no_event` at the open hand (thumb tip at the
origin, index fingertip at `(0.5, 0)`, distance `0.5 ≥ 0.05`). -/
theorem no_pinch_no_event_witness :
    toggle_drag openHand true = some (true, []) ∧
    detect_click openHand = some [] :=
  no_pinch_no_event openHand true ⟨0, 0⟩ ⟨1/2, 0⟩ rfl rfl
    (by rw [← not_lt,
          calculate_distance_lt_iff ⟨0, 0⟩ ⟨1/2, 0⟩ (0.05 : ℚ) (by norm_num)]
        norm_num [calculate_distance_sq])
